import Mathlib

/-!
Verification of the SDL core: the protocol engine
(protocol_handler_impl.cc) and the application manager core
(application_manager_impl.cc), embedded shallowly.  Stateful C++
members become explicit state values, the uint32 message counters
become naturals reduced mod 2^32, byte buffers become lists of
naturals below 256, and callback invocations become values returned
alongside the new state.
-/

namespace SDLCore

/-- Modulus of the uint32 per-session message counters. -/
def U32 : Nat := 4294967296

/-- Modulus of a uint8 value. -/
def U8 : Nat := 256

/-! ### Wire constants

Numeric frame/service constants.  The values of the control frame-data
bytes and service-type bytes follow the wire table of the protocol;
`FRAME_DATA_MAX_CONSECUTIVE` and the hash sentinels live in
protocol_packet.h / protocol_handler.h, which are not part of the two
embedded translation units.  Modelled from the spec: the consecutive
data byte cycles 1..0x7F, a zero hash is the sentinel WRONG and
protocol version < 2 yields the sentinel NOT_SUPPORTED (consistent
with get_hash_id, which maps a decoded 0 to HASH_ID_WRONG). -/

def PROTOCOL_VERSION_1 : Nat := 1
def PROTOCOL_VERSION_2 : Nat := 2
def PROTOCOL_VERSION_3 : Nat := 3
def PROTOCOL_VERSION_4 : Nat := 4

def SERVICE_TYPE_CONTROL : Nat := 0
def SERVICE_TYPE_RPC : Nat := 7
/-- Audio streaming service byte (named for the PCM audio stream it
carries). -/
def SERVICE_TYPE_PCM : Nat := 10
def SERVICE_TYPE_NAVI : Nat := 11
def SERVICE_TYPE_BULK : Nat := 15

def FRAME_DATA_SINGLE : Nat := 0
def FRAME_DATA_FIRST : Nat := 0
def FRAME_DATA_LAST_CONSECUTIVE : Nat := 0
def FRAME_DATA_MAX_CONSECUTIVE : Nat := 127
def FRAME_DATA_START_SERVICE : Nat := 1
def FRAME_DATA_START_SERVICE_ACK : Nat := 2
def FRAME_DATA_START_SERVICE_NACK : Nat := 3
def FRAME_DATA_END_SERVICE : Nat := 4
def FRAME_DATA_END_SERVICE_ACK : Nat := 5
def FRAME_DATA_END_SERVICE_NACK : Nat := 6

def HASH_ID_NOT_SUPPORTED : Nat := 0
def HASH_ID_WRONG : Nat := 4294967295

/-- Frame type byte of a protocol packet. -/
inductive FrameType where
  | CONTROL
  | SINGLE
  | FIRST
  | CONSECUTIVE
deriving DecidableEq, Repr

/-- A protocol packet, mirroring the fields the ProtocolPacket
constructor receives in protocol_handler_impl.cc.  `data` is the
payload as a list of bytes. -/
structure Frame where
  connection_id : Nat
  protocol_version : Nat
  protection : Bool
  frame_type : FrameType
  service_type : Nat
  frame_data : Nat
  session_id : Nat
  message_id : Nat
  data : List Nat
deriving DecidableEq, Repr

/-! ### Per-session message counters

`message_counters_` is a `std::map<uint8_t, uint32_t>` keyed by the
session id alone; an absent key reads as 0 (value-initialised by
`operator[]`).  We embed it as an association list with unique keys. -/

/-- Counter map: session id to uint32 counter value. -/
def Counters := List (Nat × Nat)

/-- Read the counter for a session; absent keys read as 0, as
`operator[]` value-initialises. -/
def mcGet (m : Counters) (sid : Nat) : Nat :=
  match m with
  | [] => 0
  | (k, v) :: t => if k = sid then v else mcGet t sid

/-- Store a counter value for a session. -/
def mcSet (m : Counters) (sid : Nat) (v : Nat) : Counters :=
  match m with
  | [] => [(sid, v)]
  | (k, x) :: t => if k = sid then (sid, v) :: t else (k, x) :: mcSet t sid v

/-- Embedding of `message_counters_.erase(session_id)`. -/
def mcErase (m : Counters) (sid : Nat) : Counters :=
  match m with
  | [] => []
  | (k, x) :: t => if k = sid then t else (k, x) :: mcErase t sid

/-- Embedding of `message_counters_[session_id]++`: returns the old value and the
map holding the incremented (wrapping uint32) value. -/
def mcBump (m : Counters) (sid : Nat) : Nat × Counters :=
  (mcGet m sid, mcSet m sid ((mcGet m sid + 1) % U32))

/-! ### Big-endian 32-bit encoding (byte_order.h helpers) -/

/-- Big-endian byte encoding of a 32-bit value, as the byte-shift
sequence in SendMultiFrameMessage writes it (each byte truncated to
uint8). -/
def be32 (n : Nat) : List Nat :=
  [n / 16777216 % 256, n / 65536 % 256, n / 256 % 256, n % 256]

/-- Big-endian decoding of the first four bytes of a payload, as
`BE_TO_LE32` applied to the first word of the packet data. -/
def be32decode (l : List Nat) : Nat :=
  l.getD 0 0 * 16777216 + l.getD 1 0 * 65536 + l.getD 2 0 * 256 + l.getD 3 0

/-! ### get_hash_id / set_hash_id (protocol_handler_impl.cc 154..169, 887..900) -/

/-- Embedding of `get_hash_id`: extract the hash id from an EndSession packet. -/
def get_hash_id (packet : Frame) : Nat :=
  if packet.protocol_version < PROTOCOL_VERSION_2 then
    HASH_ID_NOT_SUPPORTED
  else if packet.data.length < 4 then
    HASH_ID_WRONG
  else
    let hash_le := be32decode packet.data
    if hash_le = HASH_ID_NOT_SUPPORTED then HASH_ID_WRONG else hash_le

/-- Embedding of `set_hash_id`: write the hash id into a StartServiceAck packet
unless it is a sentinel or the packet is protocol version 1. -/
def set_hash_id (hash_id : Nat) (packet : Frame) : Frame :=
  if hash_id = HASH_ID_NOT_SUPPORTED ∨ hash_id = HASH_ID_WRONG then packet
  else if packet.protocol_version < PROTOCOL_VERSION_2 then packet
  else { packet with data := be32 hash_id }

/-! ### SupportedSDLProtocolVersion (protocol_handler_impl.cc 1365..1379)

The two profile flags consulted there are passed explicitly. -/

/-- Embedding of `SupportedSDLProtocolVersion`: 4 when protocol 4 is enabled, else 3
when a heartbeat timeout is configured, else 2. -/
def SupportedSDLProtocolVersion (heart_beat_support : Bool) (sdl4_support : Bool) : Nat :=
  if sdl4_support then PROTOCOL_VERSION_4
  else if heart_beat_support then PROTOCOL_VERSION_3
  else PROTOCOL_VERSION_2

/-! ### Outbound frame construction

Each Send* member of ProtocolHandlerImpl builds a ProtocolPacket and
posts it to the to-mobile queue; the embedding returns the packet (or
packets) together with the updated counter map. -/

/-- Embedding of `SendSingleFrameMessage` (protocol_handler_impl.cc 609..623): one
Single frame whose message id is the post-incremented uint32 counter
of the session. -/
def SendSingleFrameMessage (m : Counters) (connection_id session_id protocol_version service_type : Nat) (data : List Nat) : Frame × Counters :=
  let (mid, m1) := mcBump m session_id
  ({ connection_id := connection_id
   , protocol_version := protocol_version
   , protection := false
   , frame_type := FrameType.SINGLE
   , service_type := service_type
   , frame_data := FRAME_DATA_SINGLE
   , session_id := session_id
   , message_id := mid
   , data := data }, m1)

/-- The `out_data` buffer of `SendMultiFrameMessage`: total size and
frame count, each written big-endian byte by byte (truncating shifts
of the size_t values to uint8). -/
def firstFramePayload (data_size frames_count : Nat) : List Nat :=
  be32 data_size ++ be32 frames_count

/-- The consecutive frames of `SendMultiFrameMessage`: frame `i` takes
`max_frame_size` bytes at offset `max_frame_size * i` (the last takes
`lastframe_size`), with data byte `i % FRAME_DATA_MAX_CONSECUTIVE + 1`
and `FRAME_DATA_LAST_CONSECUTIVE` on the last frame.  All share the
message id of the First frame. -/
def consecutiveFrames (connection_id protocol_version service_type session_id message_id : Nat) (data : List Nat) (max_frame_size lastframe_size frames_count : Nat) : List Frame :=
  (List.range frames_count).map (fun i =>
    let is_last_frame := i = frames_count - 1
    let frame_size := if is_last_frame then lastframe_size else max_frame_size
    let data_type := if is_last_frame then FRAME_DATA_LAST_CONSECUTIVE
                     else i % FRAME_DATA_MAX_CONSECUTIVE + 1
    { connection_id := connection_id
    , protocol_version := protocol_version
    , protection := false
    , frame_type := FrameType.CONSECUTIVE
    , service_type := service_type
    , frame_data := data_type
    , session_id := session_id
    , message_id := message_id
    , data := (data.drop (max_frame_size * i)).take frame_size })

/-- Embedding of `SendMultiFrameMessage` (protocol_handler_impl.cc 625..694): a
First frame carrying (total size, frame count) big-endian, then the
consecutive frames.  The message id is drawn from the per-session
counter once, through the `const uint8_t message_id` local, hence
truncated to a uint8. -/
def SendMultiFrameMessage (m : Counters) (connection_id session_id protocol_version service_type : Nat) (data : List Nat) (max_frame_size : Nat) : List Frame × Counters :=
  let lastframe_remainder := data.length % max_frame_size
  let lastframe_size := if lastframe_remainder > 0 then lastframe_remainder else max_frame_size
  let frames_count := data.length / max_frame_size + (if lastframe_remainder > 0 then 1 else 0)
  let (ctr, m1) := mcBump m session_id
  let message_id := ctr % U8
  let firstPacket : Frame :=
    { connection_id := connection_id
    , protocol_version := protocol_version
    , protection := false
    , frame_type := FrameType.FIRST
    , service_type := service_type
    , frame_data := FRAME_DATA_FIRST
    , session_id := session_id
    , message_id := message_id
    , data := firstFramePayload data.length frames_count }
  (firstPacket ::
     consecutiveFrames connection_id protocol_version service_type session_id
       message_id data max_frame_size lastframe_size frames_count, m1)

/-- Wire constant `MAXIMUM_FRAME_DATA_SIZE` (protocol constant from
protocol_packet.h, not part of the embedded translation units).
Modelled from the spec: the frame data budget out of which the v1/v2
header sizes are paid. -/
def MAXIMUM_FRAME_DATA_SIZE : Nat := 1488

def PROTOCOL_HEADER_V1_SIZE : Nat := 8
def PROTOCOL_HEADER_V2_SIZE : Nat := 12

/-- Embedding of `SendMessageToMobileApp` (protocol_handler_impl.cc 331..420,
security disabled): single frame when the payload fits into
`MAXIMUM_FRAME_DATA_SIZE` minus the header, multi-frame otherwise. -/
def SendMessageToMobileApp (m : Counters) (connection_handle sessionID protocol_version service_type : Nat) (data : List Nat) : List Frame × Counters :=
  let header_size := if protocol_version = PROTOCOL_VERSION_1
                     then PROTOCOL_HEADER_V1_SIZE else PROTOCOL_HEADER_V2_SIZE
  let max_frame_size := MAXIMUM_FRAME_DATA_SIZE - header_size
  if data.length ≤ max_frame_size then
    let (f, m1) := SendSingleFrameMessage m connection_handle sessionID protocol_version service_type data
    ([f], m1)
  else
    SendMultiFrameMessage m connection_handle sessionID protocol_version service_type data max_frame_size

/-- Embedding of `SendStartSessionAck` (protocol_handler_impl.cc 171..196): a
control frame at the head-unit supported protocol version (the
caller-passed version parameter is unused in the source), message id
drawn from the counter of the (registry-assigned) session id, hash id
attached by `set_hash_id`. -/
def SendStartSessionAck (heart_beat_support sdl4_support : Bool) (m : Counters) (connection_id session_id : Nat) (hash_id service_type : Nat) (protection : Bool) : Frame × Counters :=
  let protocolVersion := SupportedSDLProtocolVersion heart_beat_support sdl4_support
  let (mid, m1) := mcBump m session_id
  let ptr : Frame :=
    { connection_id := connection_id
    , protocol_version := protocolVersion
    , protection := protection
    , frame_type := FrameType.CONTROL
    , service_type := service_type
    , frame_data := FRAME_DATA_START_SERVICE_ACK
    , session_id := session_id
    , message_id := mid
    , data := [] }
  (set_hash_id hash_id ptr, m1)

/-- Embedding of `SendStartSessionNAck` (protocol_handler_impl.cc 198..216): a
control frame echoing the caller-passed protocol version. -/
def SendStartSessionNAck (m : Counters) (connection_id session_id protocol_version service_type : Nat) : Frame × Counters :=
  let (mid, m1) := mcBump m session_id
  ({ connection_id := connection_id
   , protocol_version := protocol_version
   , protection := false
   , frame_type := FrameType.CONTROL
   , service_type := service_type
   , frame_data := FRAME_DATA_START_SERVICE_NACK
   , session_id := session_id
   , message_id := mid
   , data := [] }, m1)

/-- Embedding of `SendEndSessionAck` (protocol_handler_impl.cc 237..255). -/
def SendEndSessionAck (m : Counters) (connection_id session_id protocol_version service_type : Nat) : Frame × Counters :=
  let (mid, m1) := mcBump m session_id
  ({ connection_id := connection_id
   , protocol_version := protocol_version
   , protection := false
   , frame_type := FrameType.CONTROL
   , service_type := service_type
   , frame_data := FRAME_DATA_END_SERVICE_ACK
   , session_id := session_id
   , message_id := mid
   , data := [] }, m1)

/-- Embedding of `SendEndSessionNAck` (protocol_handler_impl.cc 218..235). -/
def SendEndSessionNAck (m : Counters) (connection_id session_id protocol_version service_type : Nat) : Frame × Counters :=
  let (mid, m1) := mcBump m session_id
  ({ connection_id := connection_id
   , protocol_version := protocol_version
   , protection := false
   , frame_type := FrameType.CONTROL
   , service_type := service_type
   , frame_data := FRAME_DATA_END_SERVICE_NACK
   , session_id := session_id
   , message_id := mid
   , data := [] }, m1)

/-! ### Control message handlers

The Session Registry (`session_observer_`) is an external collaborator;
its verdict is passed in: for StartSession the pair
(assigned session id, hash id) of `OnSessionStartedCallback`, for
EndSession the session key of `OnSessionEndedCallback`. -/

/-- Embedding of `HandleControlMessageStartSession` (protocol_handler_impl.cc
998..1071, security disabled): NAck with the original protocol version
when the registry refuses (session id 0), otherwise an Ack built by
`SendStartSessionAck` with the registry-supplied hash id and
protection off. -/
def HandleControlMessageStartSession (heart_beat_support sdl4_support : Bool) (m : Counters) (connection_id : Nat) (packet : Frame) (registry_session_id registry_hash_id : Nat) : Frame × Counters :=
  if registry_session_id = 0 then
    SendStartSessionNAck m connection_id packet.session_id
      packet.protocol_version packet.service_type
  else
    SendStartSessionAck heart_beat_support sdl4_support m connection_id
      registry_session_id registry_hash_id packet.service_type false

/-- Embedding of `HandleControlMessageEndSession` (protocol_handler_impl.cc
902..926): on registry acceptance (non-zero session key) send an
EndSessionAck and erase the counter of the session id; otherwise send
an EndSessionNAck. -/
def HandleControlMessageEndSession (m : Counters) (connection_id : Nat) (packet : Frame) (registry_session_key : Nat) : Frame × Counters :=
  if registry_session_key ≠ 0 then
    let (f, m1) := SendEndSessionAck m connection_id packet.session_id
      packet.protocol_version packet.service_type
    (f, mcErase m1 packet.session_id)
  else
    SendEndSessionNAck m connection_id packet.session_id
      packet.protocol_version packet.service_type

/-! ### Counter map lemmas -/

theorem mcGet_mcSet_same (m : Counters) (sid v : Nat) : mcGet (mcSet m sid v) sid = v := by
  induction m with
  | nil => simp [mcSet, mcGet]
  | cons h t ih =>
    obtain ⟨k, x⟩ := h
    by_cases hk : k = sid <;> simp [mcSet, mcGet, hk, ih]

theorem mcGet_mcSet_other (m : Counters) (sid s v : Nat) (h : s ≠ sid) :
    mcGet (mcSet m sid v) s = mcGet m s := by
  have hss : sid ≠ s := fun hh => h hh.symm
  induction m with
  | nil => simp [mcSet, mcGet, hss]
  | cons hd t ih =>
    obtain ⟨k, x⟩ := hd
    by_cases hk : k = sid
    · subst hk
      simp [mcSet, mcGet, hss]
    · by_cases hs : k = s <;> simp [mcSet, mcGet, hk, hs, h, ih]

theorem mcGet_eq_zero_of_not_mem (m : Counters) (sid : Nat)
    (h : sid ∉ m.map Prod.fst) : mcGet m sid = 0 := by
  induction m with
  | nil => simp [mcGet]
  | cons hd t ih =>
    obtain ⟨k, x⟩ := hd
    simp only [List.map_cons, List.mem_cons] at h
    push_neg at h
    have hk : k ≠ sid := fun hh => h.1 hh.symm
    simp [mcGet, hk, ih h.2]

theorem mcGet_mcErase_same (m : Counters) (sid : Nat)
    (h : (m.map Prod.fst).Nodup) : mcGet (mcErase m sid) sid = 0 := by
  induction m with
  | nil => simp [mcErase, mcGet]
  | cons hd t ih =>
    obtain ⟨k, x⟩ := hd
    simp only [List.map_cons, List.nodup_cons] at h
    by_cases hk : k = sid
    · subst hk
      simp only [mcErase, if_pos rfl]
      exact mcGet_eq_zero_of_not_mem t k h.1
    · simp only [mcErase, if_neg hk, mcGet]
      exact ih h.2

theorem mcSet_keys_mem (t : Counters) (sid v s : Nat)
    (hs : s ∈ (mcSet t sid v).map Prod.fst) : s ∈ t.map Prod.fst ∨ s = sid := by
  induction t with
  | nil =>
    simp [mcSet] at hs
    exact Or.inr hs
  | cons hd2 t2 ih2 =>
    obtain ⟨k2, x2⟩ := hd2
    by_cases hk2 : k2 = sid
    · subst hk2
      simp [mcSet] at hs
      rcases hs with h1 | h1
      · exact Or.inr h1
      · exact Or.inl (by simp [h1])
    · simp [mcSet, hk2] at hs
      rcases hs with h1 | h1
      · exact Or.inl (by simp [h1])
      · obtain ⟨x, hx⟩ := h1
        rcases ih2 (List.mem_map_of_mem Prod.fst hx) with h2 | h2
        · exact Or.inl (by simp [h2])
        · exact Or.inr h2

theorem mcSet_keys_nodup (m : Counters) (sid v : Nat)
    (h : (m.map Prod.fst).Nodup) : ((mcSet m sid v).map Prod.fst).Nodup := by
  induction m with
  | nil => simp [mcSet]
  | cons hd t ih =>
    obtain ⟨k, x⟩ := hd
    simp only [List.map_cons, List.nodup_cons] at h
    by_cases hk : k = sid
    · subst hk
      simpa [mcSet, List.nodup_cons] using h
    · simp only [mcSet, if_neg hk, List.map_cons, List.nodup_cons]
      refine ⟨fun hmem => ?_, ih h.2⟩
      rcases mcSet_keys_mem t sid v k hmem with h2 | h2
      · exact h.1 h2
      · exact hk h2

/-! ### C6: hash id extraction sentinels -/

/-- C6: for every EndSession control packet, the extracted hash id is
NOT_SUPPORTED when the protocol version is below 2, WRONG when (at
version 2 or higher) the payload is shorter than 4 bytes or decodes to
zero, and the decoded big-endian value otherwise. -/
theorem get_hash_id_sentinels (packet : Frame) :
    (packet.protocol_version < 2 → get_hash_id packet = HASH_ID_NOT_SUPPORTED) ∧
    (2 ≤ packet.protocol_version → packet.data.length < 4 →
      get_hash_id packet = HASH_ID_WRONG) ∧
    (2 ≤ packet.protocol_version → 4 ≤ packet.data.length →
      be32decode packet.data = 0 → get_hash_id packet = HASH_ID_WRONG) ∧
    (2 ≤ packet.protocol_version → 4 ≤ packet.data.length →
      be32decode packet.data ≠ 0 → get_hash_id packet = be32decode packet.data) := by
  refine ⟨fun h1 => ?_, fun h1 h2 => ?_, fun h1 h2 h3 => ?_, fun h1 h2 h3 => ?_⟩ <;>
    simp only [get_hash_id, PROTOCOL_VERSION_2, HASH_ID_NOT_SUPPORTED, HASH_ID_WRONG]
  · rw [if_pos h1]
  · rw [if_neg (by omega), if_pos h2]
  · rw [if_neg (by omega), if_neg (by omega), if_pos h3]
  · rw [if_neg (by omega), if_neg (by omega), if_neg h3]

/-- Witness for `get_hash_id_sentinels`: a version-1 packet yields the
NOT_SUPPORTED sentinel, a zero-hash version-2 packet yields WRONG, and
a genuine version-2 hash is decoded. -/
theorem get_hash_id_sentinels_witness :
    get_hash_id ⟨1, 1, false, FrameType.CONTROL, 0, 4, 2, 0, [0, 0, 0, 9]⟩ = HASH_ID_NOT_SUPPORTED ∧
    get_hash_id ⟨1, 2, false, FrameType.CONTROL, 0, 4, 2, 0, [0, 0, 0, 0]⟩ = HASH_ID_WRONG ∧
    get_hash_id ⟨1, 2, false, FrameType.CONTROL, 0, 4, 2, 0, [0, 0, 0, 9]⟩ = 9 :=
  ⟨(get_hash_id_sentinels _).1 (by decide),
   (get_hash_id_sentinels _).2.2.1 (by decide) (by decide) (by decide),
   (get_hash_id_sentinels _).2.2.2 (by decide) (by decide) (by decide)⟩

/-! ### C5: StartService handling -/

/-- The shape of a StartServiceAck frame as the claim describes it:
control frame, ack data byte, head-unit supported protocol version
computed from the two profile flags, hash id carried big-endian. -/
def StartAckShape (f : Frame) (heart_beat_support sdl4_support : Bool) (session_id hash_id : Nat) : Prop :=
  f.frame_type = FrameType.CONTROL ∧
  f.frame_data = FRAME_DATA_START_SERVICE_ACK ∧
  f.session_id = session_id ∧
  f.protocol_version = (if sdl4_support then 4 else if heart_beat_support then 3 else 2) ∧
  2 ≤ f.protocol_version ∧
  f.data = be32 hash_id

/-- The shape of a StartServiceNAck frame: control frame, nack data
byte, the original protocol version and session id of the refused
packet. -/
def StartNAckShape (f : Frame) (packet : Frame) : Prop :=
  f.frame_type = FrameType.CONTROL ∧
  f.frame_data = FRAME_DATA_START_SERVICE_NACK ∧
  f.session_id = packet.session_id ∧
  f.protocol_version = packet.protocol_version

/-- C5: when the registry accepts (non-zero session id) the engine
sends a StartServiceAck at the head-unit supported protocol version
(4 when protocol 4 is enabled, else 3 when heartbeat is enabled, else
2) carrying the registry-supplied hash id; when the registry refuses
it sends a StartServiceNAck at the original protocol version. -/
theorem HandleControlMessageStartSession_spec (heart_beat_support sdl4_support : Bool)
    (m : Counters) (connection_id : Nat) (packet : Frame)
    (registry_session_id registry_hash_id : Nat) :
    (registry_session_id ≠ 0 →
      registry_hash_id ≠ HASH_ID_NOT_SUPPORTED → registry_hash_id ≠ HASH_ID_WRONG →
      StartAckShape (HandleControlMessageStartSession heart_beat_support sdl4_support m
        connection_id packet registry_session_id registry_hash_id).1
        heart_beat_support sdl4_support registry_session_id registry_hash_id) ∧
    (registry_session_id = 0 →
      StartNAckShape (HandleControlMessageStartSession heart_beat_support sdl4_support m
        connection_id packet registry_session_id registry_hash_id).1 packet) := by
  constructor
  · intro hsid hns hw
    simp only [HandleControlMessageStartSession, if_neg hsid, SendStartSessionAck,
      mcBump, set_hash_id, SupportedSDLProtocolVersion, PROTOCOL_VERSION_2,
      PROTOCOL_VERSION_3, PROTOCOL_VERSION_4, StartAckShape]
    rw [if_neg (by exact fun h => h.elim hns hw)]
    cases sdl4_support <;> cases heart_beat_support <;> simp
  · intro hsid
    simp [HandleControlMessageStartSession, if_pos hsid, SendStartSessionNAck,
      mcBump, StartNAckShape]

/-- Witness for `HandleControlMessageStartSession_spec`: with sdl4
disabled and heartbeat enabled, an accepted StartService for session 3
with hash 77 yields an Ack at version 3 carrying 77 big-endian; a
refused one yields a NAck at the packet version. -/
theorem HandleControlMessageStartSession_spec_witness :
    StartAckShape (HandleControlMessageStartSession true false [] 1
        ⟨1, 2, false, FrameType.CONTROL, 7, 1, 9, 0, []⟩ 3 77).1 true false 3 77 ∧
    StartNAckShape (HandleControlMessageStartSession true false [] 1
        ⟨1, 2, false, FrameType.CONTROL, 7, 1, 9, 0, []⟩ 0 77).1
        ⟨1, 2, false, FrameType.CONTROL, 7, 1, 9, 0, []⟩ :=
  ⟨(HandleControlMessageStartSession_spec true false [] 1 _ 3 77).1
      (by decide) (by decide) (by decide),
   (HandleControlMessageStartSession_spec true false [] 1 _ 0 77).2 rfl⟩

/-! ### C9: counters keyed by session id alone -/

/-- C9: the outbound message counters are keyed by the 8-bit session
id alone: two sends on different connections carrying the same session
id draw consecutive values from one shared counter, and an accepted
EndService for that session id handled on any connection erases the
shared counter (a later read starts again from 0). -/
theorem counters_shared_across_connections (m : Counters)
    (c1 c2 sid pv svc : Nat) (d1 d2 : List Nat)
    (hkeys : (m.map Prod.fst).Nodup) (hconn : c1 ≠ c2) :
    (SendSingleFrameMessage m c1 sid pv svc d1).1.message_id = mcGet m sid ∧
    (SendSingleFrameMessage (SendSingleFrameMessage m c1 sid pv svc d1).2
        c2 sid pv svc d2).1.message_id = (mcGet m sid + 1) % U32 ∧
    (∀ conn packet key, packet.session_id = sid → key ≠ 0 →
      mcGet (HandleControlMessageEndSession
        (SendSingleFrameMessage (SendSingleFrameMessage m c1 sid pv svc d1).2
          c2 sid pv svc d2).2 conn packet key).2 sid = 0) := by
  refine ⟨rfl, ?_, ?_⟩
  · simp [SendSingleFrameMessage, mcBump, mcGet_mcSet_same]
  · intro conn packet key hpkt hkey
    simp only [HandleControlMessageEndSession, if_pos hkey, SendEndSessionAck,
      SendSingleFrameMessage, mcBump, hpkt]
    have h1 : ((mcSet m sid ((mcGet m sid + 1) % U32)).map Prod.fst).Nodup :=
      mcSet_keys_nodup m sid _ hkeys
    have h2 := mcSet_keys_nodup (mcSet m sid ((mcGet m sid + 1) % U32)) sid
      ((mcGet (mcSet m sid ((mcGet m sid + 1) % U32)) sid + 1) % U32) h1
    have h3 := mcSet_keys_nodup _ sid
      ((mcGet (mcSet (mcSet m sid ((mcGet m sid + 1) % U32)) sid
        ((mcGet (mcSet m sid ((mcGet m sid + 1) % U32)) sid + 1) % U32)) sid + 1) % U32) h2
    exact mcGet_mcErase_same _ sid h3

/-- Witness for `counters_shared_across_connections`: two sends on
connections 1 and 2 with session 5 yield ids 0 and 1, and an accepted
EndService on connection 9 resets the shared counter to 0. -/
theorem counters_shared_across_connections_witness :
    (SendSingleFrameMessage [] 1 5 2 7 [1]).1.message_id = mcGet [] 5 ∧
    (SendSingleFrameMessage (SendSingleFrameMessage [] 1 5 2 7 [1]).2
        2 5 2 7 [2]).1.message_id = (mcGet [] 5 + 1) % U32 ∧
    (∀ conn packet key, packet.session_id = 5 → key ≠ 0 →
      mcGet (HandleControlMessageEndSession
        (SendSingleFrameMessage (SendSingleFrameMessage [] 1 5 2 7 [1]).2
          2 5 2 7 [2]).2 conn packet key).2 5 = 0) :=
  counters_shared_across_connections [] 1 2 5 2 7 [1] [2] (by decide) (by decide)

/-! ### C2: multi-frame emission -/

theorem flatten_take_chunks (n : Nat) :
    ∀ (k : Nat) (data : List Nat), data.length ≤ n * k →
      ((List.range k).map (fun i => (data.drop (n * i)).take n)).flatten = data := by
  intro k
  induction k with
  | zero =>
    intro data h
    have hd : data = [] := List.eq_nil_of_length_eq_zero (by omega)
    subst hd
    simp
  | succ k ih =>
    intro data h
    have hms : n * (k + 1) = n * k + n := Nat.mul_succ n k
    rw [List.range_succ_eq_map, List.map_cons, List.map_map, List.flatten_cons]
    have hcongr : (List.range k).map ((fun i => (data.drop (n * i)).take n) ∘ Nat.succ) =
        (List.range k).map (fun i => (((data.drop n).drop (n * i)).take n)) := by
      refine List.map_congr_left ?_
      intro i _
      simp only [Function.comp_apply]
      rw [List.drop_drop]
      have hmi : n * Nat.succ i = n * i + n := Nat.mul_succ n i
      congr 2
      omega
    rw [hcongr, ih (data.drop n) (by rw [List.length_drop]; omega)]
    simp [List.take_append_drop]

theorem consecutiveFrames_frame_data (conn pv svc sid mid : Nat) (data : List Nat)
    (mfs ls k : Nat) (i : Nat) (hi : i < k) :
    ((consecutiveFrames conn pv svc sid mid data mfs ls k)[i]?.map Frame.frame_data) =
      some (if i = k - 1 then FRAME_DATA_LAST_CONSECUTIVE
            else i % FRAME_DATA_MAX_CONSECUTIVE + 1) := by
  simp only [consecutiveFrames, List.getElem?_map, List.getElem?_range hi]
  by_cases hlast : i = k - 1 <;> simp [hlast]

theorem consecutiveFrames_mem (conn pv svc sid mid : Nat) (data : List Nat)
    (mfs ls k : Nat) (f : Frame)
    (hf : f ∈ consecutiveFrames conn pv svc sid mid data mfs ls k) :
    f.frame_type = FrameType.CONSECUTIVE ∧ f.message_id = mid := by
  simp only [consecutiveFrames, List.mem_map] at hf
  obtain ⟨i, _, rfl⟩ := hf
  exact ⟨rfl, rfl⟩

theorem consecutiveFrames_data_flatten (conn pv svc sid mid : Nat) (data : List Nat)
    (mfs : Nat) (hmfs : 0 < mfs) (hbig : mfs < data.length) :
    (((consecutiveFrames conn pv svc sid mid data mfs
        (if data.length % mfs > 0 then data.length % mfs else mfs)
        (data.length / mfs + (if data.length % mfs > 0 then 1 else 0))).map
          Frame.data).flatten) = data := by
  have hdm : mfs * (data.length / mfs) + data.length % mfs = data.length :=
    Nat.div_add_mod data.length mfs
  have hmod : data.length % mfs < mfs := Nat.mod_lt _ hmfs
  have hq1 : 1 ≤ data.length / mfs := (Nat.one_le_div_iff hmfs).mpr (le_of_lt hbig)
  simp only [consecutiveFrames, List.map_map]
  refine Eq.trans ?_ (flatten_take_chunks mfs
    (data.length / mfs + (if data.length % mfs > 0 then 1 else 0)) data ?_)
  · congr 1
    refine List.map_congr_left ?_
    intro i hi
    rw [List.mem_range] at hi
    simp only [Function.comp_apply]
    by_cases hlast : i = data.length / mfs + (if data.length % mfs > 0 then 1 else 0) - 1
    · by_cases hr : data.length % mfs > 0
      · simp only [if_pos hr] at hlast ⊢
        simp only [if_pos hlast]
        have hmi : mfs * i = mfs * (data.length / mfs) := by
          rw [hlast, Nat.add_sub_cancel]
        have hlen : (data.drop (mfs * i)).length = data.length - mfs * i :=
          List.length_drop _ _
        rw [List.take_of_length_le (by rw [hlen, hmi]; omega),
            List.take_of_length_le (by rw [hlen, hmi]; omega)]
      · simp only [if_neg hr] at hlast ⊢
        rw [if_pos hlast]
    · simp only [if_neg hlast]
  · by_cases hr : data.length % mfs > 0
    · simp only [if_pos hr]
      have hms : mfs * (data.length / mfs + 1) = mfs * (data.length / mfs) + mfs :=
        Nat.mul_succ mfs (data.length / mfs)
      omega
    · simp only [if_neg hr, Nat.add_zero]
      omega

/-- The multi-frame emission property as the claim states it: one
First frame whose 8-byte payload is total size then frame count (both
big-endian u32), followed by exactly `frames_count` Consecutive frames
whose data bytes cycle 1..0x7F with 0x00 on the last and whose
payloads concatenate to the original data, all frames sharing one
message id while the per-session counter advances exactly once. -/
def MultiFrameEmission (m : Counters) (conn sid pv svc : Nat) (data : List Nat) (mfs : Nat) : Prop :=
  let frames_count := data.length / mfs + (if data.length % mfs > 0 then 1 else 0)
  let out := SendMultiFrameMessage m conn sid pv svc data mfs
  out.1.length = frames_count + 1 ∧
  (∃ first, out.1.head? = some first ∧
    first.frame_type = FrameType.FIRST ∧
    first.data = be32 data.length ++ be32 frames_count ∧
    (∀ f ∈ out.1, f.message_id = first.message_id)) ∧
  (∀ f ∈ out.1.tail, f.frame_type = FrameType.CONSECUTIVE) ∧
  (∀ i, i < frames_count →
    (out.1.tail[i]?.map Frame.frame_data) =
      some (if i = frames_count - 1 then FRAME_DATA_LAST_CONSECUTIVE
            else i % FRAME_DATA_MAX_CONSECUTIVE + 1)) ∧
  ((out.1.tail.map Frame.data).flatten = data) ∧
  mcGet out.2 sid = (mcGet m sid + 1) % U32 ∧
  (∀ s, s ≠ sid → mcGet out.2 s = mcGet m s)

/-- C2: a logical message whose payload does not fit into one frame is
emitted as one First frame (size and count big-endian) followed by
exactly `frames_count` Consecutive frames with cycling data bytes and
payloads concatenating to the original data, all carrying one message
id drawn by incrementing the per-session counter exactly once. -/
theorem SendMultiFrameMessage_spec (m : Counters) (conn sid pv svc : Nat)
    (data : List Nat) (mfs : Nat) (hmfs : 0 < mfs) (hbig : mfs < data.length) :
    MultiFrameEmission m conn sid pv svc data mfs := by
  simp only [MultiFrameEmission, SendMultiFrameMessage, mcBump]
  refine ⟨?_, ?_, ?_, ?_, ?_, ?_, ?_⟩
  · simp [consecutiveFrames]
  · refine ⟨_, rfl, rfl, rfl, ?_⟩
    intro f hf
    rcases List.mem_cons.mp hf with hf | hf
    · rw [hf]
    · exact (consecutiveFrames_mem _ _ _ _ _ _ _ _ _ _ hf).2
  · intro f hf
    rw [List.tail_cons] at hf
    exact (consecutiveFrames_mem _ _ _ _ _ _ _ _ _ _ hf).1
  · intro i hi
    rw [List.tail_cons]
    exact consecutiveFrames_frame_data conn pv svc sid _ data mfs _ _ i hi
  · rw [List.tail_cons]
    exact consecutiveFrames_data_flatten conn pv svc sid _ data mfs hmfs hbig
  · exact mcGet_mcSet_same m sid _
  · intro s hs
    exact mcGet_mcSet_other m sid s _ hs

/-- Witness for `SendMultiFrameMessage_spec`: a 3-byte payload over a
2-byte frame budget yields a First frame and two Consecutive frames. -/
theorem SendMultiFrameMessage_spec_witness :
    MultiFrameEmission [] 1 2 2 7 [1, 2, 3] 2 :=
  SendMultiFrameMessage_spec [] 1 2 2 7 [1, 2, 3] 2 (by decide) (by decide)

/-! ### C7: message id truncation on the multi-frame path -/

/-- C7 failing input: with the session-1 counter at 255, a single
frame is emitted with message id 255 and the counter advances to 256,
but the next (multi-frame) message is emitted with message id 0: the
`const uint8_t message_id` local of SendMultiFrameMessage truncates
the 32-bit counter, so the emitted ids 255, 0 are not strictly
increasing modulo 2^32 (no 32-bit wrap occurred; the counter itself
reads 257 afterwards). -/
theorem multiframe_message_id_truncated :
    (SendSingleFrameMessage [(1, 255)] 5 1 3 7 [0]).1.message_id = 255 ∧
    mcGet (SendSingleFrameMessage [(1, 255)] 5 1 3 7 [0]).2 1 = 256 ∧
    ((SendMultiFrameMessage (SendSingleFrameMessage [(1, 255)] 5 1 3 7 [0]).2
        5 1 3 7 [1, 2, 3] 2).1.map Frame.message_id) = [0, 0, 0] ∧
    mcGet (SendMultiFrameMessage (SendSingleFrameMessage [(1, 255)] 5 1 3 7 [0]).2
        5 1 3 7 [1, 2, 3] 2).2 1 = 257 := by
  decide

/-! ## Application Manager: HMI level arbitration
(application_manager_impl.cc)

The registered application set becomes a list of `App` records; the
lookups `application`, `active_application` and the limited-app
getters return the first match, as the C++ predicates over the set do.
Mutation of a shared application object through its pointer becomes
`updateApp`, which rewrites every entry carrying the id (with distinct
app ids this is the single object the C++ mutates).  HMI status
notifications, `set_system_context`, `SendAppDataToHMI` and the
streaming side effects of `OnHMILevelChanged` (which never touch HMI
levels) are outside the modelled state. -/

inductive HMILevel where
  | HMI_NONE
  | HMI_BACKGROUND
  | HMI_LIMITED
  | HMI_FULL
deriving DecidableEq, Repr

inductive AudioStreamingState where
  | NOT_AUDIBLE
  | ATTENUATED
  | AUDIBLE
deriving DecidableEq, Repr

/-- A registered application: the attributes the HMI-level arbitration
code reads and writes. -/
structure App where
  app_id : Nat
  hmi_level : HMILevel
  audio_streaming_state : AudioStreamingState
  is_media_application : Bool
  is_voice_communication_supported : Bool
  is_navi : Bool
  hmi_supports_navi_video_streaming : Bool
  has_been_activated : Bool
deriving DecidableEq, Repr

/-- Embedding of `Application::set_hmi_level`. -/
def setLevel (level : HMILevel) (a : App) : App := { a with hmi_level := level }

/-- Embedding of `Application::set_audio_streaming_state`. -/
def setAudio (st : AudioStreamingState) (a : App) : App :=
  { a with audio_streaming_state := st }

/-- Embedding of `Application::set_activated true`. -/
def setActivated (a : App) : App := { a with has_been_activated := true }

/-- Embedding of `ApplicationManagerImpl::application`: first set entry with the
given app id. -/
def application (s : List App) (app_id : Nat) : Option App :=
  s.find? (fun a => a.app_id == app_id)

/-- Mutation of the application object with the given id. -/
def updateApp (s : List App) (app_id : Nat) (f : App → App) : List App :=
  s.map (fun a => if a.app_id = app_id then f a else a)

/-- Embedding of `ApplicationImpl::IsFullscreen`.  Modelled from the spec:
application_impl.cc is not among the embedded translation units; Full
is the (single-slot) fullscreen level. -/
def IsFullscreen (a : App) : Bool := a.hmi_level == HMILevel.HMI_FULL

/-- Embedding of `Application::IsAudioApplication`.  Modelled from the spec: an app
is audio-capable when it belongs to one of the audio exclusivity
classes {media, voice, navi}. -/
def IsAudioApplication (a : App) : Bool :=
  a.is_media_application || a.is_voice_communication_supported || a.is_navi

/-- Embedding of `ActiveAppPredicate` (application_manager_impl.cc 216..218). -/
def ActiveAppPredicate (a : App) : Bool := IsFullscreen a

/-- Embedding of `LimitedAppPredicate` (228..231): any app at Limited (no media
check in the source). -/
def LimitedAppPredicate (a : App) : Bool := a.hmi_level == HMILevel.HMI_LIMITED

/-- Embedding of `LimitedNaviAppPredicate` (241..245). -/
def LimitedNaviAppPredicate (a : App) : Bool :=
  a.is_navi && a.hmi_level == HMILevel.HMI_LIMITED

/-- Embedding of `LimitedVoiceAppPredicate` (255..259). -/
def LimitedVoiceAppPredicate (a : App) : Bool :=
  a.is_voice_communication_supported && a.hmi_level == HMILevel.HMI_LIMITED

def active_application (s : List App) : Option App := s.find? ActiveAppPredicate

def get_limited_media_application (s : List App) : Option App :=
  s.find? LimitedAppPredicate

def get_limited_navi_application (s : List App) : Option App :=
  s.find? LimitedNaviAppPredicate

def get_limited_voice_application (s : List App) : Option App :=
  s.find? LimitedVoiceAppPredicate

/-- The Limited-app checks in the lower half of
`IsAppTypeExistsInFullOrLimited` (347..369). -/
def limitedTypeExists (s : List App) (app : App) : Bool :=
  (app.is_voice_communication_supported &&
    (match get_limited_voice_application s with
     | some lv => decide (lv.app_id ≠ app.app_id)
     | none => false)) ||
  (app.is_media_application &&
    (match get_limited_media_application s with
     | some lm => decide (lm.app_id ≠ app.app_id)
     | none => false)) ||
  (app.hmi_supports_navi_video_streaming &&
    (match get_limited_navi_application s with
     | some ln => decide (ln.app_id ≠ app.app_id)
     | none => false))

/-- Embedding of `IsAppTypeExistsInFullOrLimited` (320..370): shared class with the
Full app (an early false when the Full app is the argument itself),
else shared class with some other Limited app. -/
def IsAppTypeExistsInFullOrLimited (s : List App) (app : App) : Bool :=
  match active_application s with
  | some active_app =>
    if active_app.app_id = app.app_id then false
    else if app.is_voice_communication_supported &&
            active_app.is_voice_communication_supported then true
    else if app.is_media_application && active_app.is_media_application then true
    else if app.hmi_supports_navi_video_streaming &&
            active_app.hmi_supports_navi_video_streaming then true
    else limitedTypeExists s app
  | none => limitedTypeExists s app

/-- Embedding of `ChangeAppsHMILevel` (3041..3063): set the level when the app
exists and the level differs (the streaming-only side effects of
`OnHMILevelChanged` are outside the modelled state). -/
def ChangeAppsHMILevel (s : List App) (app_id : Nat) (level : HMILevel) : List App :=
  match application s app_id with
  | none => s
  | some app =>
    if app.hmi_level = level then s
    else updateApp s app_id (setLevel level)

/-- Embedding of `MakeAppNotAudible` (3065..3074). -/
def MakeAppNotAudible (s : List App) (app_id : Nat) : List App :=
  match application s app_id with
  | none => s
  | some _ =>
    updateApp (ChangeAppsHMILevel s app_id HMILevel.HMI_BACKGROUND) app_id
      (setAudio AudioStreamingState.NOT_AUDIBLE)

/-- Embedding of `MakeAppFullScreen` (3076..3095): unconditional promotion to Full
plus audible state for media/navi apps (`set_system_context` is
outside the modelled state). -/
def MakeAppFullScreen (s : List App) (app_id : Nat) : List App × Bool :=
  match application s app_id with
  | none => (s, false)
  | some app =>
    let s1 := ChangeAppsHMILevel s app_id HMILevel.HMI_FULL
    let s2 := if app.is_media_application || app.is_navi then
        updateApp s1 app_id (setAudio AudioStreamingState.AUDIBLE)
      else s1
    let s3 := updateApp s2 app_id setActivated
    (s3, true)

/-- Embedding of `DeactivateApplication` (607..619): demote to Limited when
audio-capable with no class conflict, else to Background. -/
def DeactivateApplication (s : List App) (app_id : Nat) : List App :=
  match application s app_id with
  | none => s
  | some app =>
    if IsAudioApplication app && !(IsAppTypeExistsInFullOrLimited s app) then
      ChangeAppsHMILevel s app_id HMILevel.HMI_LIMITED
    else
      ChangeAppsHMILevel s app_id HMILevel.HMI_BACKGROUND

/-- Embedding of `ActivateApplication` (534..605).  The limited-app snapshots are
taken before any demotion, as in the source; notifications are outside
the modelled state. -/
def ActivateApplication (s : List App) (app_id : Nat) : List App × Bool :=
  match application s app_id with
  | none => (s, false)
  | some app =>
    if IsFullscreen app then (s, false)
    else
      let is_new_app_media := app.is_media_application
      let is_new_app_voice := app.is_voice_communication_supported
      let is_new_app_navi := app.is_navi
      let limited_media_app := get_limited_media_application s
      let limited_voice_app := get_limited_voice_application s
      let limited_navi_app := get_limited_navi_application s
      let current_active_app := active_application s
      let s1 :=
        match current_active_app with
        | some ca =>
          if is_new_app_media && ca.is_media_application then
            MakeAppNotAudible s ca.app_id
          else DeactivateApplication s ca.app_id
        | none => s
      let s2 := (MakeAppFullScreen s1 app_id).1
      let s3 :=
        if is_new_app_media then
          match limited_media_app with
          | some lm =>
            if !lm.is_navi then MakeAppNotAudible s2 lm.app_id
            else updateApp s2 app_id (setAudio AudioStreamingState.ATTENUATED)
          | none => s2
        else s2
      let s4 :=
        if is_new_app_voice then
          match limited_voice_app with
          | some lv =>
            ChangeAppsHMILevel
              (if lv.is_media_application then MakeAppNotAudible s3 lv.app_id else s3)
              lv.app_id HMILevel.HMI_BACKGROUND
          | none => s3
        else s3
      let s5 :=
        if is_new_app_navi then
          match limited_navi_app with
          | some ln =>
            ChangeAppsHMILevel
              (if ln.is_media_application then MakeAppNotAudible s4 ln.app_id else s4)
              ln.app_id HMILevel.HMI_BACKGROUND
          | none => s4
        else s4
      (s5, true)

/-- Embedding of `GetDefaultHmiLevel` (970..998): map the policy string to a level,
falling back to None when policy is disabled, the lookup fails or the
string is unknown. -/
def GetDefaultHmiLevel (policy_enabled : Bool) (default_hmi : Option String) : HMILevel :=
  if policy_enabled then
    match default_hmi with
    | some "BACKGROUND" => HMILevel.HMI_BACKGROUND
    | some "FULL" => HMILevel.HMI_FULL
    | some "LIMITED" => HMILevel.HMI_LIMITED
    | some "NONE" => HMILevel.HMI_NONE
    | some _ => HMILevel.HMI_NONE
    | none => HMILevel.HMI_NONE
  else HMILevel.HMI_NONE

/-- The application-set effect of `RegisterApplication` (373..524):
the new application is marked registered and inserted at the
policy-resolved default HMI level; the preceding guards and id
allocation do not touch HMI levels of registered apps. -/
def RegisterApplication (s : List App) (app : App) (policy_enabled : Bool)
    (default_hmi : Option String) : List App :=
  s ++ [{ app with hmi_level := GetDefaultHmiLevel policy_enabled default_hmi }]

/-- Number of applications at HMI level Full. -/
def countFull (s : List App) : Nat := s.countP IsFullscreen

/-- The §3 invariant: at most one application is at Full. -/
def AtMostOneFull (s : List App) : Prop := countFull s ≤ 1

/-- Distinct internal app ids, as the application set guarantees. -/
def idsNodup (s : List App) : Prop := (s.map App.app_id).Nodup

/-! ### C1 support lemmas -/

theorem two_le_countP {α : Type} (p : α → Bool) (l : List α) (a b : α)
    (ha : a ∈ l) (hb : b ∈ l) (hne : a ≠ b) (hpa : p a = true) (hpb : p b = true) :
    2 ≤ l.countP p := by
  induction l with
  | nil => cases ha
  | cons c t ih =>
    rw [List.countP_cons]
    rcases List.mem_cons.mp ha with rfl | hat
    · have hbt : b ∈ t := by
        rcases List.mem_cons.mp hb with rfl | hbt
        · exact absurd rfl hne
        · exact hbt
      have h1 : 0 < t.countP p := List.countP_pos_iff.mpr ⟨b, hbt, hpb⟩
      rw [if_pos hpa]
      omega
    · rcases List.mem_cons.mp hb with rfl | hbt
      · have h1 : 0 < t.countP p := List.countP_pos_iff.mpr ⟨a, hat, hpa⟩
        rw [if_pos hpb]
        omega
      · have := ih hat hbt
        omega

theorem updateApp_map_ids (s : List App) (app_id : Nat) (f : App → App)
    (hf : ∀ a, (f a).app_id = a.app_id) :
    (updateApp s app_id f).map App.app_id = s.map App.app_id := by
  unfold updateApp
  rw [List.map_map]
  refine List.map_congr_left ?_
  intro a _
  simp only [Function.comp_apply]
  by_cases h : a.app_id = app_id <;> simp [h, hf]

theorem ChangeAppsHMILevel_map_ids (s : List App) (app_id : Nat) (level : HMILevel) :
    (ChangeAppsHMILevel s app_id level).map App.app_id = s.map App.app_id := by
  unfold ChangeAppsHMILevel
  rcases application s app_id with _ | app
  · rfl
  · by_cases h : app.hmi_level = level
    · simp [h]
    · simp only [if_neg h]
      exact updateApp_map_ids s app_id (setLevel level) (fun a => rfl)

theorem MakeAppNotAudible_map_ids (s : List App) (app_id : Nat) :
    (MakeAppNotAudible s app_id).map App.app_id = s.map App.app_id := by
  unfold MakeAppNotAudible
  rcases application s app_id with _ | app
  · rfl
  · dsimp only
    rw [updateApp_map_ids _ app_id (setAudio AudioStreamingState.NOT_AUDIBLE) (fun a => rfl),
      ChangeAppsHMILevel_map_ids]

theorem MakeAppFullScreen_map_ids (s : List App) (app_id : Nat) :
    (MakeAppFullScreen s app_id).1.map App.app_id = s.map App.app_id := by
  unfold MakeAppFullScreen
  rcases application s app_id with _ | app
  · rfl
  · dsimp only
    rw [updateApp_map_ids _ app_id setActivated (fun a => rfl)]
    by_cases h : app.is_media_application || app.is_navi
    · simp only [if_pos h]
      rw [updateApp_map_ids _ app_id (setAudio AudioStreamingState.AUDIBLE) (fun a => rfl),
        ChangeAppsHMILevel_map_ids]
    · simp only [if_neg h]
      rw [ChangeAppsHMILevel_map_ids]

theorem DeactivateApplication_map_ids (s : List App) (app_id : Nat) :
    (DeactivateApplication s app_id).map App.app_id = s.map App.app_id := by
  unfold DeactivateApplication
  rcases application s app_id with _ | app
  · rfl
  · by_cases h : IsAudioApplication app && !(IsAppTypeExistsInFullOrLimited s app) <;>
      simp only [if_pos, if_neg, h, Bool.false_eq_true, ite_false, ite_true] <;>
      exact ChangeAppsHMILevel_map_ids s app_id _

theorem application_eq_of_mem (s : List App) (a : App) (hmem : a ∈ s)
    (hnd : idsNodup s) : application s a.app_id = some a := by
  induction s with
  | nil => cases hmem
  | cons c t ih =>
    unfold idsNodup at hnd
    simp only [List.map_cons, List.nodup_cons] at hnd
    rcases List.mem_cons.mp hmem with rfl | hat
    · simp [application, List.find?]
    · have hne : (c.app_id == a.app_id) = false := by
        refine beq_eq_false_iff_ne.mpr ?_
        intro h
        exact hnd.1 (h ▸ List.mem_map_of_mem App.app_id hat)
      have := ih hat hnd.2
      unfold application at this ⊢
      rw [List.find?_cons_of_neg _ (by simp [hne]), this]

theorem full_unique (s : List App) (ca : App) (hmem : ca ∈ s)
    (hfull : IsFullscreen ca = true) (hsingle : countFull s ≤ 1) :
    ∀ a ∈ s, IsFullscreen a = true → a.app_id = ca.app_id := by
  intro a ha hfa
  by_contra hne
  have hane : a ≠ ca := fun h => hne (h ▸ rfl)
  have := two_le_countP IsFullscreen s a ca ha hmem hane hfa hfull
  unfold countFull at hsingle
  omega

/-- All applications are away from Full. -/
def noFull (s : List App) : Prop := ∀ a ∈ s, IsFullscreen a = false

theorem noFull_updateApp_demote (s : List App) (x : Nat) (f : App → App)
    (hf : ∀ a, IsFullscreen (f a) = false)
    (huniq : ∀ a ∈ s, IsFullscreen a = true → a.app_id = x) :
    noFull (updateApp s x f) := by
  intro b hb
  unfold updateApp at hb
  rw [List.mem_map] at hb
  obtain ⟨a, ha, rfl⟩ := hb
  by_cases h : a.app_id = x
  · rw [if_pos h]
    exact hf a
  · rw [if_neg h]
    by_cases hfa : IsFullscreen a = true
    · exact absurd (huniq a ha hfa) h
    · simpa using hfa

theorem noFull_updateApp_of_noFull (s : List App) (x : Nat) (f : App → App)
    (hf : ∀ a, IsFullscreen (f a) = IsFullscreen a) (h : noFull s) :
    noFull (updateApp s x f) := by
  intro b hb
  unfold updateApp at hb
  rw [List.mem_map] at hb
  obtain ⟨a, ha, rfl⟩ := hb
  by_cases hx : a.app_id = x
  · rw [if_pos hx, hf]
    exact h a ha
  · rw [if_neg hx]
    exact h a ha

theorem countP_eq_zero_of_noFull (s : List App) (h : noFull s) : countFull s = 0 := by
  unfold countFull
  rw [List.countP_eq_zero]
  intro a ha
  rw [h a ha]
  simp

theorem countFull_updateApp_le (s : List App) (app_id : Nat) (f : App → App)
    (hf : ∀ a, IsFullscreen (f a) = true → IsFullscreen a = true) :
    countFull (updateApp s app_id f) ≤ countFull s := by
  unfold countFull updateApp
  rw [List.countP_map]
  refine List.countP_mono_left ?_
  intro a _ ha
  simp only [Function.comp_apply] at ha
  by_cases h : a.app_id = app_id
  · rw [if_pos h] at ha
    exact hf a ha
  · rw [if_neg h] at ha
    exact ha

theorem countFull_ChangeAppsHMILevel_le (s : List App) (app_id : Nat)
    (level : HMILevel) (hlvl : level ≠ HMILevel.HMI_FULL) :
    countFull (ChangeAppsHMILevel s app_id level) ≤ countFull s := by
  unfold ChangeAppsHMILevel
  rcases application s app_id with _ | app
  · exact le_refl _
  · dsimp only
    by_cases h : app.hmi_level = level
    · rw [if_pos h]
    · rw [if_neg h]
      refine countFull_updateApp_le s app_id (setLevel level) ?_
      intro a ha
      exact absurd (by simpa [IsFullscreen, setLevel] using ha) hlvl

theorem countFull_MakeAppNotAudible_le (s : List App) (app_id : Nat) :
    countFull (MakeAppNotAudible s app_id) ≤ countFull s := by
  unfold MakeAppNotAudible
  rcases application s app_id with _ | app
  · exact le_refl _
  · dsimp only
    calc countFull (updateApp (ChangeAppsHMILevel s app_id HMILevel.HMI_BACKGROUND)
            app_id (setAudio AudioStreamingState.NOT_AUDIBLE))
        ≤ countFull (ChangeAppsHMILevel s app_id HMILevel.HMI_BACKGROUND) :=
          countFull_updateApp_le _ app_id _ (fun a ha => ha)
      _ ≤ countFull s := countFull_ChangeAppsHMILevel_le s app_id _ (by simp)

theorem countFull_DeactivateApplication_le (s : List App) (app_id : Nat) :
    countFull (DeactivateApplication s app_id) ≤ countFull s := by
  unfold DeactivateApplication
  rcases application s app_id with _ | app
  · exact le_refl _
  · dsimp only
    by_cases h : IsAudioApplication app && !(IsAppTypeExistsInFullOrLimited s app)
    · rw [if_pos h]
      exact countFull_ChangeAppsHMILevel_le s app_id _ (by simp)
    · rw [if_neg h]
      exact countFull_ChangeAppsHMILevel_le s app_id _ (by simp)

theorem noFull_MakeAppNotAudible (s : List App) (ca : App) (hmem : ca ∈ s)
    (hfull : IsFullscreen ca = true) (hsingle : countFull s ≤ 1) (hnd : idsNodup s) :
    noFull (MakeAppNotAudible s ca.app_id) := by
  have happ : application s ca.app_id = some ca := application_eq_of_mem s ca hmem hnd
  have hlevel : ca.hmi_level = HMILevel.HMI_FULL := by
    simpa [IsFullscreen] using hfull
  have huniq := full_unique s ca hmem hfull hsingle
  unfold MakeAppNotAudible
  rw [happ]
  unfold ChangeAppsHMILevel
  rw [happ]
  dsimp only
  rw [if_neg (by rw [hlevel]; intro h; cases h)]
  refine noFull_updateApp_of_noFull _ ca.app_id _ (fun a => rfl) ?_
  exact noFull_updateApp_demote s ca.app_id _ (fun a => by simp [IsFullscreen, setLevel]) huniq

theorem noFull_DeactivateApplication (s : List App) (ca : App) (hmem : ca ∈ s)
    (hfull : IsFullscreen ca = true) (hsingle : countFull s ≤ 1) (hnd : idsNodup s) :
    noFull (DeactivateApplication s ca.app_id) := by
  have happ : application s ca.app_id = some ca := application_eq_of_mem s ca hmem hnd
  have hlevel : ca.hmi_level = HMILevel.HMI_FULL := by
    simpa [IsFullscreen] using hfull
  have huniq := full_unique s ca hmem hfull hsingle
  unfold DeactivateApplication
  rw [happ]
  dsimp only
  by_cases h : IsAudioApplication ca && !(IsAppTypeExistsInFullOrLimited s ca)
  · rw [if_pos h]
    unfold ChangeAppsHMILevel
    rw [happ]
    dsimp only
    rw [if_neg (by rw [hlevel]; intro hh; cases hh)]
    exact noFull_updateApp_demote s ca.app_id _ (fun a => by simp [IsFullscreen, setLevel]) huniq
  · rw [if_neg h]
    unfold ChangeAppsHMILevel
    rw [happ]
    dsimp only
    rw [if_neg (by rw [hlevel]; intro hh; cases hh)]
    exact noFull_updateApp_demote s ca.app_id _ (fun a => by simp [IsFullscreen, setLevel]) huniq

theorem countApp_le_one (s : List App) (app_id : Nat) (hnd : idsNodup s) :
    s.countP (fun a => a.app_id == app_id) ≤ 1 := by
  have h1 : s.countP (fun a => a.app_id == app_id) =
      (s.map App.app_id).count app_id := by
    rw [List.count, List.countP_map]
    rfl
  rw [h1]
  exact List.nodup_iff_count_le_one.mp hnd app_id

theorem countFull_MakeAppFullScreen_le_one (s : List App) (app_id : Nat)
    (hnd : idsNodup s) (hinv : countFull s ≤ 1)
    (huniq : ∀ a ∈ s, IsFullscreen a = true → a.app_id = app_id) :
    countFull (MakeAppFullScreen s app_id).1 ≤ 1 := by
  unfold MakeAppFullScreen
  rcases happ : application s app_id with _ | app
  · exact hinv
  · dsimp only
    have hs1 : countFull (ChangeAppsHMILevel s app_id HMILevel.HMI_FULL) ≤ 1 := by
      unfold ChangeAppsHMILevel
      rw [happ]
      dsimp only
      by_cases hfa : app.hmi_level = HMILevel.HMI_FULL
      · rw [if_pos hfa]
        exact hinv
      · rw [if_neg hfa]
        calc countFull (updateApp s app_id (setLevel HMILevel.HMI_FULL))
            ≤ s.countP (fun a => a.app_id == app_id) := by
              unfold countFull updateApp
              rw [List.countP_map]
              refine List.countP_mono_left ?_
              intro a ha hfull
              simp only [Function.comp_apply] at hfull
              by_cases h : a.app_id = app_id
              · simp [h]
              · rw [if_neg h] at hfull
                exact absurd (huniq a ha hfull) h
          _ ≤ 1 := countApp_le_one s app_id hnd
    have hs2 : countFull (if app.is_media_application || app.is_navi then
        updateApp (ChangeAppsHMILevel s app_id HMILevel.HMI_FULL) app_id
          (setAudio AudioStreamingState.AUDIBLE)
      else ChangeAppsHMILevel s app_id HMILevel.HMI_FULL) ≤ 1 := by
      by_cases h : app.is_media_application || app.is_navi
      · rw [if_pos h]
        exact le_trans (countFull_updateApp_le _ app_id _ (fun a ha => ha)) hs1
      · rw [if_neg h]
        exact hs1
    exact le_trans (countFull_updateApp_le _ app_id setActivated (fun a ha => ha)) hs2

theorem countFull_MakeAppFullScreen_of_noFull (s : List App) (app_id : Nat)
    (hnf : noFull s) (hnd : idsNodup s) :
    countFull (MakeAppFullScreen s app_id).1 ≤ 1 := by
  refine countFull_MakeAppFullScreen_le_one s app_id hnd ?_ ?_
  · have := countP_eq_zero_of_noFull s hnf
    omega
  · intro a ha hfa
    rw [hnf a ha] at hfa
    cases hfa

theorem countFull_branchStep_le (t : List App) (b : Bool) (o : Option App) :
    countFull (if b = true then
        match o with
        | some lv => ChangeAppsHMILevel
            (if lv.is_media_application = true then MakeAppNotAudible t lv.app_id else t)
            lv.app_id HMILevel.HMI_BACKGROUND
        | none => t
      else t) ≤ countFull t := by
  by_cases hb : b = true
  · rw [if_pos hb]
    rcases o with _ | lv
    · exact le_refl _
    · dsimp only
      refine le_trans (countFull_ChangeAppsHMILevel_le _ _ _ (by simp)) ?_
      by_cases hm : lv.is_media_application = true
      · rw [if_pos hm]
        exact countFull_MakeAppNotAudible_le t lv.app_id
      · rw [if_neg hm]
  · rw [if_neg hb]

theorem countFull_mediaStep_le (t : List App) (b : Bool) (o : Option App) (x : Nat) :
    countFull (if b = true then
        match o with
        | some lm => if (!lm.is_navi) = true then MakeAppNotAudible t lm.app_id
                     else updateApp t x (setAudio AudioStreamingState.ATTENUATED)
        | none => t
      else t) ≤ countFull t := by
  by_cases hb : b = true
  · rw [if_pos hb]
    rcases o with _ | lm
    · exact le_refl _
    · dsimp only
      by_cases hn : (!lm.is_navi) = true
      · rw [if_pos hn]
        exact countFull_MakeAppNotAudible_le t lm.app_id
      · rw [if_neg hn]
        exact countFull_updateApp_le t x _ (fun a ha => ha)
  · rw [if_neg hb]

theorem idsNodup_of_map_ids_eq (s t : List App)
    (h : t.map App.app_id = s.map App.app_id) (hnd : idsNodup s) : idsNodup t := by
  unfold idsNodup at hnd ⊢
  rw [h]
  exact hnd

theorem ActivateApplication_preserves (s : List App) (app_id : Nat)
    (hnd : idsNodup s) (hinv : countFull s ≤ 1) :
    countFull (ActivateApplication s app_id).1 ≤ 1 := by
  unfold ActivateApplication
  rcases happ : application s app_id with _ | app
  · exact hinv
  · dsimp only
    by_cases hfs : IsFullscreen app = true
    · rw [if_pos hfs]
      exact hinv
    · rw [if_neg hfs]
      dsimp only
      refine le_trans (countFull_branchStep_le _ _ _) ?_
      refine le_trans (countFull_branchStep_le _ _ _) ?_
      refine le_trans (countFull_mediaStep_le _ _ _ _) ?_
      rcases hca : active_application s with _ | ca
      · dsimp only
        have hnf : noFull s := by
          intro a ha
          unfold active_application at hca
          have := List.find?_eq_none.mp hca a ha
          simpa [ActiveAppPredicate] using this
        exact countFull_MakeAppFullScreen_of_noFull s app_id hnf hnd
      · dsimp only
        unfold active_application at hca
        have hmem : ca ∈ s := List.mem_of_find?_eq_some hca
        have hfull : IsFullscreen ca = true := by
          have := List.find?_some hca
          simpa [ActiveAppPredicate] using this
        by_cases hm : (app.is_media_application && ca.is_media_application) = true
        · rw [if_pos hm]
          refine countFull_MakeAppFullScreen_of_noFull _ app_id ?_ ?_
          · exact noFull_MakeAppNotAudible s ca hmem hfull hinv hnd
          · exact idsNodup_of_map_ids_eq s _ (MakeAppNotAudible_map_ids s ca.app_id) hnd
        · rw [if_neg hm]
          refine countFull_MakeAppFullScreen_of_noFull _ app_id ?_ ?_
          · exact noFull_DeactivateApplication s ca hmem hfull hinv hnd
          · exact idsNodup_of_map_ids_eq s _ (DeactivateApplication_map_ids s ca.app_id) hnd

/-- Two media applications with distinct ids: app 1 at Full, app 2 at
Background. -/
def twoAppsExample : List App :=
  [ { app_id := 1
    , hmi_level := HMILevel.HMI_FULL
    , audio_streaming_state := AudioStreamingState.AUDIBLE
    , is_media_application := true
    , is_voice_communication_supported := false
    , is_navi := false
    , hmi_supports_navi_video_streaming := false
    , has_been_activated := true }
  , { app_id := 2
    , hmi_level := HMILevel.HMI_BACKGROUND
    , audio_streaming_state := AudioStreamingState.NOT_AUDIBLE
    , is_media_application := true
    , is_voice_communication_supported := false
    , is_navi := false
    , hmi_supports_navi_video_streaming := false
    , has_been_activated := false } ]

/-- C1 counterexample: `MakeAppFullScreen` promotes unconditionally,
so invoked on a state where a different application is Full it
produces two Full applications — the claim that every listed HMI-level
operation preserves the single-Full invariant fails at this input. -/
theorem MakeAppFullScreen_two_full :
    AtMostOneFull twoAppsExample ∧ idsNodup twoAppsExample ∧
    ¬ AtMostOneFull (MakeAppFullScreen twoAppsExample 2).1 := by
  refine ⟨?_, ?_, ?_⟩
  · unfold AtMostOneFull countFull
    decide
  · unfold idsNodup
    decide
  · unfold AtMostOneFull countFull
    decide

/-- C1 (amended): on states with distinct app ids satisfying the
single-Full invariant, `ActivateApplication` and
`DeactivateApplication` preserve the invariant unconditionally;
`RegisterApplication` preserves it provided the policy-resolved
default level is not Full; and `MakeAppFullScreen` preserves it
provided no other application is Full (which is how
`ActivateApplication` invokes it, after demoting the active app). -/
theorem HMI_level_ops_preserve_single_full (s : List App) (app_id : Nat)
    (hnd : idsNodup s) (hinv : AtMostOneFull s) :
    AtMostOneFull (ActivateApplication s app_id).1 ∧
    AtMostOneFull (DeactivateApplication s app_id) ∧
    (∀ app policy_enabled default_hmi,
      GetDefaultHmiLevel policy_enabled default_hmi ≠ HMILevel.HMI_FULL →
      AtMostOneFull (RegisterApplication s app policy_enabled default_hmi)) ∧
    ((∀ a ∈ s, IsFullscreen a = true → a.app_id = app_id) →
      AtMostOneFull (MakeAppFullScreen s app_id).1) := by
  refine ⟨ActivateApplication_preserves s app_id hnd hinv,
          le_trans (countFull_DeactivateApplication_le s app_id) hinv,
          ?_, fun huniq => countFull_MakeAppFullScreen_le_one s app_id hnd hinv huniq⟩
  intro app policy_enabled default_hmi hne
  show countFull (s ++
    [{ app with hmi_level := GetDefaultHmiLevel policy_enabled default_hmi }]) ≤ 1
  unfold countFull
  rw [List.countP_append]
  have hx : IsFullscreen
      { app with hmi_level := GetDefaultHmiLevel policy_enabled default_hmi } = false := by
    unfold IsFullscreen
    simpa using hne
  have hs : s.countP IsFullscreen ≤ 1 := hinv
  simp [List.countP_cons, hx]
  exact hs

/-- Witness for `HMI_level_ops_preserve_single_full`: activating the
Background media app of `twoAppsExample` keeps at most one Full app. -/
theorem HMI_level_ops_preserve_single_full_witness :
    AtMostOneFull (ActivateApplication twoAppsExample 2).1 :=
  (HMI_level_ops_preserve_single_full twoAppsExample 2
    (by unfold idsNodup; decide) (by unfold AtMostOneFull countFull; decide)).1

/-! ## Application Manager: lifecycle, admission control, flood
metering and the streaming watchdog (application_manager_impl.cc)

The lifecycle claims need the application set (ids and policy app
ids), the forbidden-app deny set, the stored unregister reason, the
`RemovalsForBadBehavior` usage counter (aggregated over apps), the
service status map and the recorded navi app.  Notifications to mobile
become returned lists of (connection key, reason) pairs.  The device
name resolution done through the connection handler is passed as a
function. -/

/-- Values of `mobile_apis::AppInterfaceUnregisteredReason` the claims
touch. -/
inductive UnregisterReason where
  | TOO_MANY_REQUESTS
  | REQUEST_WHILE_IN_NONE_HMI_LEVEL
  | PROTOCOL_VIOLATION
  | INVALID_ENUM
deriving DecidableEq, Repr

/-- Values of `mobile_apis::Result` the claims touch. -/
inductive MobileResult where
  | SUCCESS
  | TOO_MANY_PENDING_REQUESTS
  | APPLICATION_NOT_REGISTERED
  | ABORTED
  | INVALID_ENUM
deriving DecidableEq, Repr

/-- A registered application entry: internal id (connection key) and
vendor-provided mobile app id. -/
structure RegApp where
  app_id : Nat
  mobile_app_id : String
deriving DecidableEq, Repr

/-- The Application Manager state the lifecycle claims read and
write. -/
structure AMState where
  applications : List RegApp
  forbidden_applications : List String
  unregister_reason : UnregisterReason
  removals_for_bad_behavior : Nat
  service_status : List (Nat × (Bool × Bool))
  navi_app_to_stop : Nat
deriving DecidableEq, Repr

/-- Embedding of `ApplicationManagerImpl::application` over the lifecycle state. -/
def applicationEntry (s : List RegApp) (app_id : Nat) : Option RegApp :=
  s.find? (fun a => a.app_id == app_id)

/-- Embedding of `GetHashedAppID` (2609..2619): the hash is the concatenation of
the mobile app id and the device name resolved from the connection
key. -/
def GetHashedAppID (device_name_of : Nat → String) (connection_key : Nat)
    (mobile_app_id : String) : String :=
  mobile_app_id ++ device_name_of connection_key

/-- Embedding of `IsApplicationForbidden` (2832..2836). -/
def IsApplicationForbidden (device_name_of : Nat → String) (st : AMState)
    (connection_key : Nat) (mobile_app_id : String) : Bool :=
  st.forbidden_applications.contains
    (GetHashedAppID device_name_of connection_key mobile_app_id)

/-- Embedding of `UnregisterApplication` (2314..2396): notify mobile with the
stored unregister reason, and for reason TOO_MANY_PENDING_REQUESTS
record bad behavior and insert the forbidden hash; then erase the app
from the set when present (resume bookkeeping, audio pass-through
shutdown and HMI notifications are outside the modelled state; the
deny set is a std::set, embedded as a list with cons insertion). -/
def UnregisterApplication (device_name_of : Nat → String) (st : AMState)
    (app_id : Nat) (reason : MobileResult) :
    AMState × List (Nat × UnregisterReason) :=
  let notifs := [(app_id, st.unregister_reason)]
  let st1 :=
    if reason = MobileResult.TOO_MANY_PENDING_REQUESTS then
      match applicationEntry st.applications app_id with
      | some app_ptr =>
        { st with
          removals_for_bad_behavior := st.removals_for_bad_behavior + 1
        , forbidden_applications :=
            GetHashedAppID device_name_of app_id app_ptr.mobile_app_id ::
              st.forbidden_applications }
      | none => st
    else st
  match applicationEntry st1.applications app_id with
  | none => (st1, notifs)
  | some _ =>
    ({ st1 with
       applications := st1.applications.eraseP (fun a => a.app_id == app_id) },
     notifs)

/-- Embedding of `OnApplicationFloodCallBack` (1197..1210): notify mobile with
reason TOO_MANY_REQUESTS, then unregister with result
TOO_MANY_PENDING_REQUESTS (the resuming flag only drives resume
bookkeeping, outside the modelled state). -/
def OnApplicationFloodCallBack (device_name_of : Nat → String) (st : AMState)
    (connection_key : Nat) : AMState × List (Nat × UnregisterReason) :=
  let r := UnregisterApplication device_name_of st connection_key
    MobileResult.TOO_MANY_PENDING_REQUESTS
  (r.1, (connection_key, UnregisterReason.TOO_MANY_REQUESTS) :: r.2)

/-! ### Flood metering (protocol side) -/

/-- Modelled from the spec: the utils MessageMeter (not among the
embedded translation units) keeps the per-identifier count of
messages inside the sliding `message_frequency_time` window;
`TrackMessage` adds one occurrence and returns the in-window count,
`RemoveIdentifier` erases the identifier. -/
def meterTrack (m : Counters) (key : Nat) : Nat × Counters :=
  (mcGet m key + 1, mcSet m key (mcGet m key + 1))

/-- Modelled from the spec: `MessageMeter::RemoveIdentifier`. -/
def meterRemove (m : Counters) (key : Nat) : Counters := mcErase m key

/-- Embedding of `ProtocolHandlerImpl::TrackMessage` (1098..1114): with the meter
configured, track the message and report flooding (after erasing the
identifier) when the in-window count exceeds
`message_max_frequency`. -/
def TrackMessage (message_frequency_time message_max_frequency : Nat)
    (m : Counters) (connection_key : Nat) : Bool × Counters :=
  if message_frequency_time > 0 ∧ message_max_frequency > 0 then
    let r := meterTrack m connection_key
    if r.1 > message_max_frequency then
      (true, meterRemove r.2 connection_key)
    else (false, r.2)
  else (false, m)

/-- The tracking part of `ProtocolHandlerImpl::Handle` for inbound
frames (1139..1160): audio and video streaming service types are not
tracked; otherwise `TrackMessage` runs and a flood verdict invokes the
Application Manager flood callback (reached through
`session_observer_`). -/
def HandleFromMobileTracking (message_frequency_time message_max_frequency : Nat)
    (device_name_of : Nat → String) (m : Counters) (st : AMState)
    (service_type connection_key : Nat) :
    Counters × AMState × List (Nat × UnregisterReason) :=
  if service_type = SERVICE_TYPE_NAVI ∨ service_type = SERVICE_TYPE_PCM then
    (m, st, [])
  else
    let r := TrackMessage message_frequency_time message_max_frequency m connection_key
    if r.1 then
      let c := OnApplicationFloodCallBack device_name_of st connection_key
      (r.2, c.1, c.2)
    else (r.2, st, [])

/-! ### Request admission (ManageMobileCommand, request branch) -/

/-- Verdicts of `request_controller::RequestController::TResult`.  Modelled from
the spec: the request controller is not among the embedded translation
units; its verdict names the limit that was exceeded. -/
inductive TResult where
  | SUCCESS
  | TOO_MANY_PENDING_REQUESTS
  | TOO_MANY_REQUESTS
  | NONE_HMI_LEVEL_MANY_REQUESTS
deriving DecidableEq, Repr

/-- The admission dispatch of `ManageMobileCommand` for mobile
requests (1443..1507): per-app limit yields only a negative response;
the global burst limit notifies TOO_MANY_REQUESTS and unregisters with
result TOO_MANY_PENDING_REQUESTS; a None-level burst notifies
REQUEST_WHILE_IN_NONE_HMI_LEVEL, records bad behavior and unregisters
with result INVALID_ENUM.  Output: new state, notifications, negative
responses. -/
def ManageMobileRequest (device_name_of : Nat → String) (st : AMState)
    (result : TResult) (connection_key : Nat) :
    AMState × List (Nat × UnregisterReason) × List (Nat × MobileResult) :=
  match result with
  | TResult.SUCCESS => (st, [], [])
  | TResult.TOO_MANY_PENDING_REQUESTS =>
      (st, [], [(connection_key, MobileResult.TOO_MANY_PENDING_REQUESTS)])
  | TResult.TOO_MANY_REQUESTS =>
      let r := UnregisterApplication device_name_of st connection_key
        MobileResult.TOO_MANY_PENDING_REQUESTS
      (r.1, (connection_key, UnregisterReason.TOO_MANY_REQUESTS) :: r.2, [])
  | TResult.NONE_HMI_LEVEL_MANY_REQUESTS =>
      let st0 := match applicationEntry st.applications connection_key with
        | some _ =>
          { st with removals_for_bad_behavior := st.removals_for_bad_behavior + 1 }
        | none => st
      let r := UnregisterApplication device_name_of st0 connection_key
        MobileResult.INVALID_ENUM
      (r.1, (connection_key, UnregisterReason.REQUEST_WHILE_IN_NONE_HMI_LEVEL) :: r.2, [])

/-! ### Forbidden-app registration refusal -/

/-- Modelled from the spec: the RegisterAppInterface command (not
among the embedded translation units) refuses a registration attempt
whose (mobile_app_id, device) hash is in the deny set, always with the
same error; `some e` is a refusal with error `e`, `none` admits the
attempt to normal processing. -/
def RegisterAppAttempt (device_name_of : Nat → String) (st : AMState)
    (connection_key : Nat) (mobile_app_id : String) : Option MobileResult :=
  if IsApplicationForbidden device_name_of st connection_key mobile_app_id then
    some MobileResult.TOO_MANY_PENDING_REQUESTS
  else none

/-! ### Streaming teardown watchdog -/

/-- Embedding of `AckReceived` (2737..2749): the end-sent flag equals the
ack-received flag of the service status entry (a missing entry reads
value-initialised, as `std::map::operator[]` produces). -/
def AckReceived (st : AMState) (service_type : Nat) : Bool :=
  let pair := (st.service_status.lookup service_type).getD (false, false)
  pair.1 == pair.2

/-- Embedding of `CloseNaviApp` (2725..2735): when the acks are outstanding for the
audio or the video service, set the unregister reason to
PROTOCOL_VIOLATION and unregister the recorded navi app with result
ABORTED.  The third output records the performed unregister call. -/
def CloseNaviApp (device_name_of : Nat → String) (st : AMState) :
    AMState × List (Nat × UnregisterReason) × Option (Nat × MobileResult) :=
  let is_ack_received := AckReceived st SERVICE_TYPE_PCM &&
    AckReceived st SERVICE_TYPE_NAVI
  if !is_ack_received then
    let st1 := { st with unregister_reason := UnregisterReason.PROTOCOL_VIOLATION }
    let r := UnregisterApplication device_name_of st1 st.navi_app_to_stop
      MobileResult.ABORTED
    (r.1, r.2, some (st.navi_app_to_stop, MobileResult.ABORTED))
  else (st, [], none)

/-! ### Lifecycle lemmas -/

theorem applicationEntry_eraseP (s : List RegApp) (key : Nat)
    (hnd : (s.map RegApp.app_id).Nodup) :
    applicationEntry (s.eraseP (fun a => a.app_id == key)) key = none := by
  induction s with
  | nil => rfl
  | cons h t ih =>
    simp only [List.map_cons, List.nodup_cons] at hnd
    by_cases hk : (h.app_id == key) = true
    · have hkey : h.app_id = key := by simpa using hk
      simp only [List.eraseP_cons, hk, cond_true]
      unfold applicationEntry
      refine List.find?_eq_none.mpr ?_
      intro a ha
      simp only [beq_iff_eq]
      intro hcon
      exact hnd.1 (hkey ▸ hcon ▸ List.mem_map_of_mem RegApp.app_id ha)
    · simp only [List.eraseP_cons, hk, cond_false]
      unfold applicationEntry at ih ⊢
      rw [List.find?_cons_of_neg _ (by simpa using hk)]
      exact ih hnd.2

theorem UnregisterApplication_effects (dn : Nat → String) (st : AMState)
    (key : Nat) (reason : MobileResult) (app : RegApp)
    (happ : applicationEntry st.applications key = some app)
    (hnd : (st.applications.map RegApp.app_id).Nodup) :
    applicationEntry (UnregisterApplication dn st key reason).1.applications key = none ∧
    (UnregisterApplication dn st key reason).2 = [(key, st.unregister_reason)] ∧
    (reason ≠ MobileResult.TOO_MANY_PENDING_REQUESTS →
      (UnregisterApplication dn st key reason).1.removals_for_bad_behavior =
        st.removals_for_bad_behavior) := by
  by_cases hr : reason = MobileResult.TOO_MANY_PENDING_REQUESTS
  · subst hr
    unfold UnregisterApplication
    rw [if_pos rfl]
    dsimp only
    rw [happ]
    dsimp only
    rw [happ]
    dsimp only
    refine ⟨?_, rfl, fun h => absurd rfl h⟩
    exact applicationEntry_eraseP st.applications key hnd
  · unfold UnregisterApplication
    rw [if_neg hr]
    dsimp only
    rw [happ]
    dsimp only
    exact ⟨applicationEntry_eraseP st.applications key hnd, rfl, fun _ => rfl⟩

/-! ### C3: flood metering and the flood callback -/

/-- C3: for an inbound frame whose service type is not audio or video
streaming, the per-connection_key window counter is incremented; when
the count crosses `message_max_frequency` the flood callback runs (it
notifies mobile with reason TOO_MANY_REQUESTS and unregisters the
app) and the counter for that connection is reset. -/
theorem flood_metering_spec (message_frequency_time message_max_frequency : Nat)
    (dn : Nat → String) (m : Counters) (st : AMState) (svc key : Nat) (app : RegApp)
    (hft : 0 < message_frequency_time) (hmf : 0 < message_max_frequency)
    (hnav : svc ≠ SERVICE_TYPE_NAVI) (haud : svc ≠ SERVICE_TYPE_PCM)
    (happ : applicationEntry st.applications key = some app)
    (hnd : (st.applications.map RegApp.app_id).Nodup)
    (hmk : (m.map Prod.fst).Nodup) :
    (mcGet m key + 1 ≤ message_max_frequency →
      mcGet (HandleFromMobileTracking message_frequency_time message_max_frequency
        dn m st svc key).1 key = mcGet m key + 1 ∧
      (HandleFromMobileTracking message_frequency_time message_max_frequency
        dn m st svc key).2.1 = st ∧
      (HandleFromMobileTracking message_frequency_time message_max_frequency
        dn m st svc key).2.2 = []) ∧
    (message_max_frequency < mcGet m key + 1 →
      mcGet (HandleFromMobileTracking message_frequency_time message_max_frequency
        dn m st svc key).1 key = 0 ∧
      (HandleFromMobileTracking message_frequency_time message_max_frequency
        dn m st svc key).2.2 =
        [(key, UnregisterReason.TOO_MANY_REQUESTS), (key, st.unregister_reason)] ∧
      applicationEntry (HandleFromMobileTracking message_frequency_time
        message_max_frequency dn m st svc key).2.1.applications key = none) := by
  have hsvc : ¬(svc = SERVICE_TYPE_NAVI ∨ svc = SERVICE_TYPE_PCM) := by
    intro h
    rcases h with h | h
    · exact hnav h
    · exact haud h
  have heff := UnregisterApplication_effects dn st key
    MobileResult.TOO_MANY_PENDING_REQUESTS app happ hnd
  constructor
  · intro hle
    have hgt : ¬(mcGet m key + 1 > message_max_frequency) := by omega
    simp [HandleFromMobileTracking, hsvc, TrackMessage, hft, hmf, meterTrack,
      hgt, mcGet_mcSet_same]
  · intro hgt
    have hgt2 : mcGet m key + 1 > message_max_frequency := by omega
    simp only [HandleFromMobileTracking, if_neg hsvc, TrackMessage,
      if_pos (And.intro hft hmf), meterTrack, if_pos hgt2, meterRemove,
      OnApplicationFloodCallBack]
    refine ⟨?_, ?_, ?_⟩
    · exact mcGet_mcErase_same _ key (mcSet_keys_nodup m key _ hmk)
    · simp [heff.2.1]
    · simpa using heff.1

/-- Witness for `flood_metering_spec`: with a limit of 2 per window,
the third message from connection 9 floods, resets the counter and
unregisters the app. -/
theorem flood_metering_spec_witness :
    mcGet (HandleFromMobileTracking 1000 2 (fun _ => "dev") [(9, 2)]
      ⟨[⟨9, "app"⟩], [], UnregisterReason.INVALID_ENUM, 0, [], 0⟩ 7 9).1 9 = 0 ∧
    (HandleFromMobileTracking 1000 2 (fun _ => "dev") [(9, 2)]
      ⟨[⟨9, "app"⟩], [], UnregisterReason.INVALID_ENUM, 0, [], 0⟩ 7 9).2.2 =
      [(9, UnregisterReason.TOO_MANY_REQUESTS), (9, UnregisterReason.INVALID_ENUM)] ∧
    applicationEntry (HandleFromMobileTracking 1000 2 (fun _ => "dev") [(9, 2)]
      ⟨[⟨9, "app"⟩], [], UnregisterReason.INVALID_ENUM, 0, [], 0⟩ 7 9).2.1.applications 9 = none :=
  (flood_metering_spec 1000 2 (fun _ => "dev") [(9, 2)]
    ⟨[⟨9, "app"⟩], [], UnregisterReason.INVALID_ENUM, 0, [], 0⟩ 7 9 ⟨9, "app"⟩
    (by decide) (by decide) (by decide) (by decide) (by rfl) (by decide) (by decide)).2
    (by decide)

/-! ### C4: request admission outcomes -/

/-- C4: when a mobile request fails admission control, the per-app
pending limit yields only a TOO_MANY_PENDING_REQUESTS negative
response with the application still registered; the global burst limit
notifies mobile and unregisters the application; a None-level burst
notifies with reason REQUEST_WHILE_IN_NONE_HMI_LEVEL, increments the
RemovalsForBadBehavior counter and unregisters the application. -/
theorem admission_control_spec (dn : Nat → String) (st : AMState)
    (key : Nat) (app : RegApp)
    (happ : applicationEntry st.applications key = some app)
    (hnd : (st.applications.map RegApp.app_id).Nodup) :
    (ManageMobileRequest dn st TResult.TOO_MANY_PENDING_REQUESTS key =
      (st, [], [(key, MobileResult.TOO_MANY_PENDING_REQUESTS)])) ∧
    ((key, UnregisterReason.TOO_MANY_REQUESTS) ∈
        (ManageMobileRequest dn st TResult.TOO_MANY_REQUESTS key).2.1 ∧
      applicationEntry
        (ManageMobileRequest dn st TResult.TOO_MANY_REQUESTS key).1.applications
        key = none) ∧
    ((key, UnregisterReason.REQUEST_WHILE_IN_NONE_HMI_LEVEL) ∈
        (ManageMobileRequest dn st TResult.NONE_HMI_LEVEL_MANY_REQUESTS key).2.1 ∧
      (ManageMobileRequest dn st
        TResult.NONE_HMI_LEVEL_MANY_REQUESTS key).1.removals_for_bad_behavior =
        st.removals_for_bad_behavior + 1 ∧
      applicationEntry
        (ManageMobileRequest dn st
          TResult.NONE_HMI_LEVEL_MANY_REQUESTS key).1.applications key = none) := by
  refine ⟨rfl, ?_, ?_⟩
  · have heff := UnregisterApplication_effects dn st key
      MobileResult.TOO_MANY_PENDING_REQUESTS app happ hnd
    unfold ManageMobileRequest
    exact ⟨List.mem_cons_self _ _, heff.1⟩
  · unfold ManageMobileRequest
    rw [happ]
    dsimp only
    have heff := UnregisterApplication_effects dn
      { st with removals_for_bad_behavior := st.removals_for_bad_behavior + 1 }
      key MobileResult.INVALID_ENUM app happ hnd
    refine ⟨List.mem_cons_self _ _, ?_, heff.1⟩
    have h2 := heff.2.2 (by intro h; cases h)
    simpa using h2

/-- Witness for `admission_control_spec`: a concrete one-app state. -/
theorem admission_control_spec_witness :
    ManageMobileRequest (fun _ => "dev")
      ⟨[⟨4, "m"⟩], [], UnregisterReason.INVALID_ENUM, 0, [], 0⟩
      TResult.TOO_MANY_PENDING_REQUESTS 4 =
      (⟨[⟨4, "m"⟩], [], UnregisterReason.INVALID_ENUM, 0, [], 0⟩, [],
       [(4, MobileResult.TOO_MANY_PENDING_REQUESTS)]) :=
  (admission_control_spec (fun _ => "dev")
    ⟨[⟨4, "m"⟩], [], UnregisterReason.INVALID_ENUM, 0, [], 0⟩ 4 ⟨4, "m"⟩
    (by rfl) (by decide)).1

/-! ### C8: forbidden applications -/

/-- C8: a bad-behavior unregister inserts the (mobile_app_id, device
name) hash into the deny set; `IsApplicationForbidden` then holds for
that pair from any connection key resolving to the same device, and
every registration attempt matching the hash is refused with the same
error. -/
theorem forbidden_after_bad_behavior (dn : Nat → String) (st : AMState)
    (key : Nat) (app : RegApp)
    (happ : applicationEntry st.applications key = some app) :
    GetHashedAppID dn key app.mobile_app_id ∈
      (UnregisterApplication dn st key
        MobileResult.TOO_MANY_PENDING_REQUESTS).1.forbidden_applications ∧
    (∀ k2, dn k2 = dn key →
      IsApplicationForbidden dn
        (UnregisterApplication dn st key
          MobileResult.TOO_MANY_PENDING_REQUESTS).1 k2 app.mobile_app_id = true) ∧
    (∀ k2 k3, dn k2 = dn key → dn k3 = dn key →
      RegisterAppAttempt dn
        (UnregisterApplication dn st key
          MobileResult.TOO_MANY_PENDING_REQUESTS).1 k2 app.mobile_app_id =
        some MobileResult.TOO_MANY_PENDING_REQUESTS ∧
      RegisterAppAttempt dn
        (UnregisterApplication dn st key
          MobileResult.TOO_MANY_PENDING_REQUESTS).1 k3 app.mobile_app_id =
      RegisterAppAttempt dn
        (UnregisterApplication dn st key
          MobileResult.TOO_MANY_PENDING_REQUESTS).1 k2 app.mobile_app_id) := by
  have hmem : GetHashedAppID dn key app.mobile_app_id ∈
      (UnregisterApplication dn st key
        MobileResult.TOO_MANY_PENDING_REQUESTS).1.forbidden_applications := by
    unfold UnregisterApplication
    rw [if_pos rfl]
    dsimp only
    rw [happ]
    dsimp only
    rcases applicationEntry
        ({ st with
           removals_for_bad_behavior := st.removals_for_bad_behavior + 1
         , forbidden_applications :=
             GetHashedAppID dn key app.mobile_app_id ::
               st.forbidden_applications } : AMState).applications key with _ | a2
    · exact List.mem_cons_self _ _
    · exact List.mem_cons_self _ _
  have hforb : ∀ k2, dn k2 = dn key →
      IsApplicationForbidden dn
        (UnregisterApplication dn st key
          MobileResult.TOO_MANY_PENDING_REQUESTS).1 k2 app.mobile_app_id = true := by
    intro k2 hk2
    unfold IsApplicationForbidden GetHashedAppID
    rw [hk2]
    exact List.elem_eq_true_of_mem hmem
  refine ⟨hmem, hforb, ?_⟩
  intro k2 k3 hk2 hk3
  have h2 := hforb k2 hk2
  have h3 := hforb k3 hk3
  unfold RegisterAppAttempt
  rw [h2, h3]
  exact ⟨by simp, by simp⟩

/-- Witness for `forbidden_after_bad_behavior`: after the flood-style
unregister of app 4, registration from connection 8 on the same device
is refused. -/
theorem forbidden_after_bad_behavior_witness :
    RegisterAppAttempt (fun _ => "dev")
      (UnregisterApplication (fun _ => "dev")
        ⟨[⟨4, "m"⟩], [], UnregisterReason.INVALID_ENUM, 0, [], 0⟩ 4
        MobileResult.TOO_MANY_PENDING_REQUESTS).1 8 "m" =
      some MobileResult.TOO_MANY_PENDING_REQUESTS :=
  ((forbidden_after_bad_behavior (fun _ => "dev")
    ⟨[⟨4, "m"⟩], [], UnregisterReason.INVALID_ENUM, 0, [], 0⟩ 4 ⟨4, "m"⟩
    (by rfl)).2.2 8 8 rfl rfl).1

/-! ### C10: streaming teardown watchdog -/

/-- C10: `CloseNaviApp` force-unregisters the recorded navi
application (notification reason PROTOCOL_VIOLATION, result ABORTED)
exactly when, for the audio or the video service, the end-sent flag
differs from the ack-received flag in the service status map; when
EndService was never sent for either service (no map entries), the
application stays registered. -/
theorem CloseNaviApp_spec (dn : Nat → String) (st : AMState) (app : RegApp)
    (happ : applicationEntry st.applications st.navi_app_to_stop = some app)
    (hnd : (st.applications.map RegApp.app_id).Nodup) :
    ((CloseNaviApp dn st).2.2 = some (st.navi_app_to_stop, MobileResult.ABORTED) ↔
      (((st.service_status.lookup SERVICE_TYPE_PCM).getD (false, false)).1 ≠
         ((st.service_status.lookup SERVICE_TYPE_PCM).getD (false, false)).2 ∨
       ((st.service_status.lookup SERVICE_TYPE_NAVI).getD (false, false)).1 ≠
         ((st.service_status.lookup SERVICE_TYPE_NAVI).getD (false, false)).2)) ∧
    ((CloseNaviApp dn st).2.2 = some (st.navi_app_to_stop, MobileResult.ABORTED) →
      (st.navi_app_to_stop, UnregisterReason.PROTOCOL_VIOLATION) ∈
        (CloseNaviApp dn st).2.1 ∧
      applicationEntry (CloseNaviApp dn st).1.applications st.navi_app_to_stop = none) ∧
    (st.service_status.lookup SERVICE_TYPE_PCM = none →
     st.service_status.lookup SERVICE_TYPE_NAVI = none →
      (CloseNaviApp dn st).1 = st ∧
      applicationEntry (CloseNaviApp dn st).1.applications st.navi_app_to_stop =
        some app) := by
  have hackA : AckReceived st SERVICE_TYPE_PCM = true ↔
      ((st.service_status.lookup SERVICE_TYPE_PCM).getD (false, false)).1 =
      ((st.service_status.lookup SERVICE_TYPE_PCM).getD (false, false)).2 := by
    unfold AckReceived
    exact beq_iff_eq
  have hackV : AckReceived st SERVICE_TYPE_NAVI = true ↔
      ((st.service_status.lookup SERVICE_TYPE_NAVI).getD (false, false)).1 =
      ((st.service_status.lookup SERVICE_TYPE_NAVI).getD (false, false)).2 := by
    unfold AckReceived
    exact beq_iff_eq
  by_cases hack : (AckReceived st SERVICE_TYPE_PCM &&
      AckReceived st SERVICE_TYPE_NAVI) = true
  · have hc : CloseNaviApp dn st = (st, [], none) := by
      unfold CloseNaviApp
      simp [hack]
    have hack2 := hack
    rw [Bool.and_eq_true] at hack2
    obtain ⟨hA, hV⟩ := hack2
    refine ⟨?_, ?_, ?_⟩
    · rw [hc]
      constructor
      · intro h
        cases h
      · intro h
        exfalso
        rcases h with h | h
        · exact h (hackA.mp hA)
        · exact h (hackV.mp hV)
    · rw [hc]
      intro h
      cases h
    · intro _ _
      rw [hc]
      exact ⟨rfl, happ⟩
  · have hset : applicationEntry
        ({ st with unregister_reason := UnregisterReason.PROTOCOL_VIOLATION } :
          AMState).applications st.navi_app_to_stop = some app := happ
    have heff := UnregisterApplication_effects dn
      { st with unregister_reason := UnregisterReason.PROTOCOL_VIOLATION }
      st.navi_app_to_stop MobileResult.ABORTED app hset hnd
    have hfalse : (AckReceived st SERVICE_TYPE_PCM &&
        AckReceived st SERVICE_TYPE_NAVI) = false := by
      cases h : (AckReceived st SERVICE_TYPE_PCM &&
          AckReceived st SERVICE_TYPE_NAVI)
      · rfl
      · exact absurd h hack
    have hc : CloseNaviApp dn st =
        ((UnregisterApplication dn
            { st with unregister_reason := UnregisterReason.PROTOCOL_VIOLATION }
            st.navi_app_to_stop MobileResult.ABORTED).1,
         (UnregisterApplication dn
            { st with unregister_reason := UnregisterReason.PROTOCOL_VIOLATION }
            st.navi_app_to_stop MobileResult.ABORTED).2,
         some (st.navi_app_to_stop, MobileResult.ABORTED)) := by
      unfold CloseNaviApp
      simp [hfalse]
    refine ⟨?_, ?_, ?_⟩
    · rw [hc]
      constructor
      · intro _
        have hAV : AckReceived st SERVICE_TYPE_PCM = false ∨
            AckReceived st SERVICE_TYPE_NAVI = false := by
          cases hA : AckReceived st SERVICE_TYPE_PCM
          · exact Or.inl rfl
          · cases hV : AckReceived st SERVICE_TYPE_NAVI
            · exact Or.inr rfl
            · rw [hA, hV] at hfalse
              cases hfalse
        rcases hAV with h | h
        · refine Or.inl (fun hcon => ?_)
          rw [hackA.mpr hcon] at h
          cases h
        · refine Or.inr (fun hcon => ?_)
          rw [hackV.mpr hcon] at h
          cases h
      · intro _
        rfl
    · rw [hc]
      intro _
      refine ⟨?_, heff.1⟩
      rw [heff.2.1]
      exact List.mem_cons_self _ _
    · intro h1 h2
      exfalso
      apply hack
      have hA : AckReceived st SERVICE_TYPE_PCM = true := by
        unfold AckReceived
        rw [h1]
        rfl
      have hV : AckReceived st SERVICE_TYPE_NAVI = true := by
        unfold AckReceived
        rw [h2]
        rfl
      rw [hA, hV]
      rfl

/-- A navi-app state whose audio EndService was sent but never
acknowledged. -/
def naviWitnessState : AMState :=
  ⟨[⟨6, "n"⟩], [], UnregisterReason.INVALID_ENUM, 0,
    [(SERVICE_TYPE_PCM, (true, false))], 6⟩

/-- Witness for `CloseNaviApp_spec`: end-sent for audio without an
ack makes the watchdog unregister app 6. -/
theorem CloseNaviApp_spec_witness :
    (CloseNaviApp (fun _ => "dev") naviWitnessState).2.2 =
        some (6, MobileResult.ABORTED) ↔
      (((naviWitnessState.service_status.lookup SERVICE_TYPE_PCM).getD
          (false, false)).1 ≠
        ((naviWitnessState.service_status.lookup SERVICE_TYPE_PCM).getD
          (false, false)).2 ∨
       ((naviWitnessState.service_status.lookup SERVICE_TYPE_NAVI).getD
          (false, false)).1 ≠
        ((naviWitnessState.service_status.lookup SERVICE_TYPE_NAVI).getD
          (false, false)).2) :=
  (CloseNaviApp_spec (fun _ => "dev") naviWitnessState ⟨6, "n"⟩ (by rfl) (by decide)).1

end SDLCore
